import Mathlib

/-!
Shallow embedding of the TelegramBotLight outage-schedule bot
(src/main.py and src/selenium_parser.py), covering the data model and the
operations the verification claims refer to: the Chernivtsi schedule parser,
the schedule / image / user stores and their upserts, the per-city refresh
loop, the image change detector, the table-cell status resolver of the
Selenium parser, and the notification sweep.
-/

namespace TGBot

/- Python string primitives, modelled on lists of characters so that every
definition reduces in the kernel. -/

/-- Prefix test on character lists. -/
def prefAux : List Char → List Char → Bool
  | [], _ => true
  | _ :: _, [] => false
  | a :: as, b :: bs => a == b && prefAux as bs

/-- Substring occurrence test on character lists. -/
def subAux (needle : List Char) : List Char → Bool
  | [] => needle.isEmpty
  | h :: t => prefAux needle (h :: t) || subAux needle t

/-- Python `needle in hay` for strings. -/
def pyIn (needle hay : String) : Bool := subAux needle.data hay.data

/-- Python `s.split(sep)` for a one-character separator. -/
def splitCh (c : Char) : List Char → List (List Char)
  | [] => [[]]
  | h :: t =>
    let r := splitCh c t
    if h == c then [] :: r
    else
      match r with
      | [] => [[h]]
      | g :: gs => (h :: g) :: gs

/-- Python `int()` on a decimal digit string. -/
def digitsVal (l : List Char) : Nat := l.foldl (fun a c => a * 10 + (c.toNat - 48)) 0

/-- Zero-padded two-digit rendering, as in `strftime("%H:%M")` and `f"{h:02d}"`. -/
def fmt2 (n : Nat) : String := if n < 10 then "0" ++ toString n else toString n

/-- One entry of a parsed schedule: a time label such as "10:00-10:30" and a
status string ("on" / "off" / "maybe" / "info" / "error"). -/
structure Item where
  time : String
  status : String
deriving DecidableEq

/-- Start part of a time label: `item['time'].split('-')[0]`. -/
def startStr (t : String) : List Char := (splitCh '-' t.data).headD []

/-- Hour part of a time string: `s.split(':')[0]`. -/
def hourPart (l : List Char) : List Char := (splitCh ':' l).headD []

/-- Minute part of a time string as an integer: `int(s.split(':')[1])`. -/
def minutePart (l : List Char) : Nat := digitsVal ((splitCh ':' l).getD 1 [])

/- ### Notification sweep (send_notifications, src/main.py lines 1177-1252) -/

/-- Alert emitted by the notification sweep. -/
structure Notif where
  user : Nat
  city : String
  group : Nat
  time : String
deriving DecidableEq

/-- The per-item alert test of send_notifications (src/main.py lines
1208-1211): status is 'off', the zero-padded target hour occurs as a
substring of the interval's start-hour string, and the minute difference is
at most 15. `target` is the minute-of-day of now + 30 minutes. -/
def notifyCond (target : Nat) (it : Item) : Bool :=
  let st := startStr it.time
  it.status == "off"
    && pyIn (fmt2 (target / 60)) (String.mk (hourPart st))
    && decide ((Int.ofNat (target % 60) - Int.ofNat (minutePart st)).natAbs ≤ 15)

/-- Row of the notifications_sent table as declared in init_db (src/main.py
lines 141-151). -/
structure SentRec where
  user : Nat
  city : String
  group : Nat
  date : String
  time : String
deriving DecidableEq

/-- The group-city branch of send_notifications (src/main.py lines
1194-1225): for each stored (group, schedule) row that has subscribers, emit
one alert per subscriber for every interval passing notifyCond. The
notifications_sent log is threaded through unchanged because the source
contains no INSERT into (nor SELECT from) notifications_sent. `now` is
minutes since midnight; the target label is strftime of now + 30 minutes,
which wraps at midnight. -/
def send_notifications_groups (city : String) (now : Nat)
    (rows : List (Nat × List Item)) (usersOf : Nat → List Nat)
    (sent : List SentRec) : List Notif × List SentRec :=
  let target := (now + 30) % 1440
  (rows.flatMap (fun gr =>
      if (usersOf gr.1).isEmpty then []
      else gr.2.flatMap (fun it =>
        if notifyCond target it then
          (usersOf gr.1).map (fun u => Notif.mk u city gr.1 it.time)
        else [])),
    sent)

/-- Modelled from the spec (section 4.4): the intended numeric comparison —
alert when the interval status is power_off and lead = interval start − now
lies within the 30-minute lead window ± the 15-minute tolerance band. The
source instead uses the substring test of notifyCond; the spec flags that
substring logic as the original's bug and states this comparison as the
intended semantics. -/
def specNotifyCond (now : Nat) (it : Item) : Bool :=
  let st := startStr it.time
  let startMin : Int := 60 * Int.ofNat (digitsVal (hourPart st)) + Int.ofNat (minutePart st)
  let lead : Int := startMin - Int.ofNat now
  it.status == "off" && decide (15 ≤ lead) && decide (lead ≤ 45)

/-- C1: the claim fails on the code. The sweep writes no notification record
at all — notifications_sent is created in init_db but never inserted into —
so the 15-minute sweeps at 09:30 and at 09:45 both emit the outage alert for
the same (subscriber 42, chernivtsi group 1, interval start 10:00) triple on
the same day, and the record log is left empty both times. -/
theorem c1_duplicate_alerts_no_record :
    (send_notifications_groups "chernivtsi" 570 [(1, [Item.mk "10:00-10:30" "off"])]
        (fun g => if g = 1 then [42] else []) []).1
      = [Notif.mk 42 "chernivtsi" 1 "10:00-10:30"] ∧
    (send_notifications_groups "chernivtsi" 570 [(1, [Item.mk "10:00-10:30" "off"])]
        (fun g => if g = 1 then [42] else []) []).2 = [] ∧
    (send_notifications_groups "chernivtsi" 585 [(1, [Item.mk "10:00-10:30" "off"])]
        (fun g => if g = 1 then [42] else []) []).1
      = [Notif.mk 42 "chernivtsi" 1 "10:00-10:30"] ∧
    (send_notifications_groups "chernivtsi" 585 [(1, [Item.mk "10:00-10:30" "off"])]
        (fun g => if g = 1 then [42] else []) []).2 = [] := by
  decide

/-- C2: the claim fails on the code. At 09:31 (minute 571) an interval
starting 09:50 with status off has numeric lead 19 minutes, inside the
30 ± 15 window, so the spec's comparison alerts; the code's substring test
compares the target hour "10" against the start hour "09" and emits
nothing. -/
theorem c2_substring_vs_numeric_lead :
    specNotifyCond 571 (Item.mk "09:50-10:00" "off") = true ∧
    notifyCond ((571 + 30) % 1440) (Item.mk "09:50-10:00" "off") = false ∧
    (send_notifications_groups "chernivtsi" 571 [(1, [Item.mk "09:50-10:00" "off"])]
        (fun g => if g = 1 then [42] else []) []).1 = [] := by
  decide

/- ### Chernivtsi parser (ScheduleParser._parse_chernivtsi, src/main.py
lines 313-370) -/

/-- Cell marker inside a group block: the source keeps exactly the
descendants whose tag name is 'u', 'o' or 's'. -/
inductive Tag
  | u
  | o
  | s
deriving DecidableEq

/-- Status string assigned to a cell tag (src/main.py lines 356-364). The
final `else 'on'` branch of the source is unreachable because the cells were
filtered to tags u/o/s beforehand. -/
def tagStatus : Tag → String
  | .u => "on"
  | .o => "off"
  | .s => "maybe"

/-- Abstract fetched Chernivtsi document: the hours extracted (in document
order) from the time blocks of the div with id 'gsv' ([] when the container
is absent or matches nothing), and for each group number the filtered cell
tags of the div with id 'inf{n}' (none when that div is absent). -/
structure ChDoc where
  gsvHours : List Nat
  groupCells : Nat → Option (List Tag)

/-- The two half-hour header labels generated per extracted hour
(src/main.py lines 341-342). -/
def mkHeaders (h : Nat) : List String :=
  [fmt2 h ++ ":00-" ++ fmt2 h ++ ":30",
   if h < 23 then fmt2 h ++ ":30-" ++ fmt2 (h + 1) ++ ":00" else "23:30-00:00"]

/-- The time_headers list built from the document. -/
def timeHeaders (doc : ChDoc) : List String := doc.gsvHours.flatMap mkHeaders

/-- ScheduleParser._parse_chernivtsi after a successful HTTP fetch: None when
no time headers were recognized; otherwise one entry per present group div,
its cells zipped against the headers (the loop breaks once the headers run
out); None again when no group produced an entry. -/
def parseChernivtsi (groups : Nat) (doc : ChDoc) : Option (List (Nat × List Item)) :=
  let ths := timeHeaders doc
  if ths = [] then none
  else
    let data := (List.range groups).filterMap (fun i =>
      match doc.groupCells (i + 1) with
      | none => none
      | some cells =>
        some (i + 1, List.zipWith (fun c th => Item.mk th (tagStatus c)) cells ths))
    if data = [] then none else some data

/-- The three branches update_schedules takes on a fetch outcome for a
group-based city (src/main.py lines 1116-1131): None means failure (log and
continue, nothing saved), an empty dict means confirmed-empty (an empty
schedule is saved for every configured group), data means save each group. -/
inductive RefreshAct
  | failed
  | saveEmptyAll (groups : Nat)
  | saveAll (m : List (Nat × List Item))
deriving DecidableEq

/-- Dispatch of update_schedules on the adapter outcome. -/
def updateDispatch (groups : Nat) (out : Option (List (Nat × List Item))) : RefreshAct :=
  match out with
  | none => .failed
  | some [] => .saveEmptyAll groups
  | some m => .saveAll m

/-- C3: failure and confirmed-empty are distinct values throughout. A
document with no recognized time structure parses to none (Failure), a
document whose group divs are all absent also parses to none, the parser
never returns the confirmed-empty value `some []`, and update_schedules
sends the two outcomes down distinct branches. -/
theorem c3_tristate_distinct :
    (∀ doc : ChDoc, timeHeaders doc = [] → parseChernivtsi 12 doc = none) ∧
    (∀ doc : ChDoc, (∀ g, 1 ≤ g → g ≤ 12 → doc.groupCells g = none) →
      parseChernivtsi 12 doc = none) ∧
    (∀ doc : ChDoc, parseChernivtsi 12 doc ≠ some []) ∧
    updateDispatch 12 none ≠ updateDispatch 12 (some []) := by
  refine ⟨?_, ?_, ?_, by decide⟩
  · intro doc h
    simp [parseChernivtsi, h]
  · intro doc h
    by_cases hth : timeHeaders doc = []
    · simp [parseChernivtsi, hth]
    · have hdata : (List.range 12).filterMap (fun i =>
          match doc.groupCells (i + 1) with
          | none => none
          | some cells =>
            some (i + 1, List.zipWith (fun c th => Item.mk th (tagStatus c)) cells
              (timeHeaders doc))) = [] := by
        refine List.filterMap_eq_nil_iff.mpr ?_
        intro i hi
        have : doc.groupCells (i + 1) = none := by
          refine h (i + 1) (by omega) ?_
          have := List.mem_range.mp hi
          omega
        simp [this]
      simp only [parseChernivtsi]
      rw [if_neg hth, hdata]
      simp
  · intro doc h
    simp only [parseChernivtsi] at h
    split at h
    · exact absurd h (by simp)
    · split at h
      · exact absurd h (by simp)
      · rename_i hne
        exact hne (by injection h)

/-- Witness for c3_tristate_distinct at concrete documents. -/
theorem c3_tristate_distinct_witness :
    parseChernivtsi 12 (ChDoc.mk [] (fun _ => some [Tag.o])) = none ∧
    parseChernivtsi 12 (ChDoc.mk [5] (fun _ => none)) = none ∧
    parseChernivtsi 12 (ChDoc.mk [5] (fun _ => none)) ≠ some [] :=
  ⟨c3_tristate_distinct.1 _ rfl,
   c3_tristate_distinct.2.1 _ (fun _ _ _ => rfl),
   c3_tristate_distinct.2.2.1 _⟩

/- ### Interval semantics of the produced time labels (for claim C6) -/

/-- Minute-of-day of a "HH:MM" character list. -/
def parseHM (l : List Char) : Nat := 60 * digitsVal (hourPart l) + minutePart l

/-- Span (start minute, end minute) of a "HH:MM-HH:MM" label; the label
"23:30-00:00" generated for the last slot denotes an end at midnight, read
as minute 1440. -/
def spanOf (t : String) : Nat × Nat :=
  let ps := splitCh '-' t.data
  let s := parseHM (ps.headD [])
  let e := parseHM (ps.getD 1 [])
  (s, if e = 0 then 1440 else e)

/-- Spans of a produced interval list. -/
def spansOf (items : List Item) : List (Nat × Nat) := items.map (fun it => spanOf it.time)

/-- Adjacent spans are contiguous: each ends where the next starts. -/
def contigB : List (Nat × Nat) → Bool
  | [] => true
  | [_] => true
  | a :: b :: t => (a.2 == b.1) && contigB (b :: t)

/-- The spans cover one calendar day: first start 00:00, last end 24:00. -/
def coversDayB (l : List (Nat × Nat)) : Bool :=
  ((l.headD (0, 0)).1 == 0) && ((l.getLastD (0, 0)).2 == 1440)

/-- Every span is nonempty (start strictly before end), which together with
contiguity gives strict ordering and non-overlap. -/
def slotsOkB (l : List (Nat × Nat)) : Bool := l.all (fun p => decide (p.1 < p.2))

/-- A sparse source document: the gsv container lists only hours 3 and 7,
and group 1 has four outage cells. -/
def sparseDoc : ChDoc :=
  ChDoc.mk [3, 7] (fun g => if g = 1 then some [Tag.o, Tag.o, Tag.o, Tag.o] else none)

/-- C6 counterexample: the claim fails on the code. The snapshot produced
from sparseDoc has a gap between 04:00 and 07:00 and starts at 03:00, so its
intervals are neither contiguous nor a cover of the calendar day. -/
theorem c6_sparse_not_contiguous :
    parseChernivtsi 12 sparseDoc =
      some [(1, [Item.mk "03:00-03:30" "off", Item.mk "03:30-04:00" "off",
                 Item.mk "07:00-07:30" "off", Item.mk "07:30-08:00" "off"])] ∧
    contigB (spansOf [Item.mk "03:00-03:30" "off", Item.mk "03:30-04:00" "off",
                 Item.mk "07:00-07:30" "off", Item.mk "07:30-08:00" "off"]) = false ∧
    coversDayB (spansOf [Item.mk "03:00-03:30" "off", Item.mk "03:30-04:00" "off",
                 Item.mk "07:00-07:30" "off", Item.mk "07:30-08:00" "off"]) = false := by
  decide

/-- Spans of a zipped group entry are the spans of the headers whenever the
cells do not run out before the headers. -/
theorem spansOf_zipWith (cells : List Tag) (ths : List String)
    (h : ths.length ≤ cells.length) :
    spansOf (List.zipWith (fun c th => Item.mk th (tagStatus c)) cells ths) =
      ths.map spanOf := by
  induction ths generalizing cells with
  | nil => simp [spansOf]
  | cons t ts ih =>
    cases cells with
    | nil => simp at h
    | cons c cs =>
      simp only [List.zipWith, spansOf, List.map]
      have := ih cs (by simpa using h)
      simpa [spansOf] using this

/-- C6 amended: when the source lists every hour 0..23 in order and a group
row supplies at least the 48 matching cells, the produced snapshot is
contiguous, made of nonempty slots, and covers exactly the calendar day at
30-minute granularity. -/
theorem c6_full_grid_invariants (doc : ChDoc) (g : Nat) (items : List Item)
    (m : List (Nat × List Item))
    (hh : doc.gsvHours = List.range 24)
    (hp : parseChernivtsi 12 doc = some m)
    (hm : (g, items) ∈ m)
    (hl : 48 ≤ items.length) :
    contigB (spansOf items) = true ∧ coversDayB (spansOf items) = true ∧
      slotsOkB (spansOf items) = true := by
  have hth : timeHeaders doc = (List.range 24).flatMap mkHeaders := by
    simp [timeHeaders, hh]
  simp only [parseChernivtsi, hth] at hp
  rw [if_neg (by decide)] at hp
  split at hp
  · exact absurd hp (by simp)
  · injection hp with h'
    rw [← h'] at hm
    obtain ⟨i, _, hfi⟩ := List.mem_filterMap.mp hm
    cases hc : doc.groupCells (i + 1) with
    | none => rw [hc] at hfi; exact absurd hfi (by simp)
    | some cells =>
      rw [hc] at hfi
      have hitems : items = List.zipWith (fun c th => Item.mk th (tagStatus c)) cells
          ((List.range 24).flatMap mkHeaders) := by
        injection hfi with h'
        exact (Prod.mk.injEq _ _ _ _ ▸ h').2.symm
      have hlen : ((List.range 24).flatMap mkHeaders).length ≤ cells.length := by
        have h48 : ((List.range 24).flatMap mkHeaders).length = 48 := by decide
        have := hl
        rw [hitems, List.length_zipWith, h48] at this
        omega
      rw [hitems, spansOf_zipWith cells _ hlen]
      decide

/-- A full-grid document with 48 restoration cells for group 1. -/
def fullDoc48 : ChDoc :=
  ChDoc.mk (List.range 24) (fun g => if g = 1 then some (List.replicate 48 Tag.u) else none)

/-- Witness for c6_full_grid_invariants on fullDoc48. -/
theorem c6_full_grid_invariants_witness :
    contigB (spansOf (List.zipWith (fun c th => Item.mk th (tagStatus c))
        (List.replicate 48 Tag.u) (timeHeaders fullDoc48))) = true ∧
    coversDayB (spansOf (List.zipWith (fun c th => Item.mk th (tagStatus c))
        (List.replicate 48 Tag.u) (timeHeaders fullDoc48))) = true ∧
    slotsOkB (spansOf (List.zipWith (fun c th => Item.mk th (tagStatus c))
        (List.replicate 48 Tag.u) (timeHeaders fullDoc48))) = true :=
  c6_full_grid_invariants fullDoc48 1
    (List.zipWith (fun c th => Item.mk th (tagStatus c))
      (List.replicate 48 Tag.u) (timeHeaders fullDoc48))
    [(1, List.zipWith (fun c th => Item.mk th (tagStatus c))
      (List.replicate 48 Tag.u) (timeHeaders fullDoc48))]
    rfl (by decide) (by simp) (by decide)

/- ### Schedule store (ScheduleParser.save_schedule, src/main.py lines
504-514; schedules table with UNIQUE(city, group_number, date),
lines 121-131) -/

/-- Row of the schedules table (updated_at is not modelled; claim C9
explicitly excludes the timestamp). -/
structure SRow where
  city : String
  group : Nat
  date : String
  data : String
deriving DecidableEq

/-- Natural key of a schedules row. -/
def sKey (r : SRow) : String × Nat × String := (r.city, r.group, r.date)

/-- INSERT .. ON CONFLICT(city, group_number, date) DO UPDATE SET
schedule_data = excluded.schedule_data: replace the row holding the key if
one exists, append otherwise. -/
def save_schedule (t : List SRow) (c : String) (g : Nat) (d : String)
    (dat : String) : List SRow :=
  if ∃ r ∈ t, r.city = c ∧ r.group = g ∧ r.date = d then
    t.map (fun r => if r.city = c ∧ r.group = g ∧ r.date = d then
      SRow.mk r.city r.group r.date dat else r)
  else t ++ [SRow.mk c g d dat]

/-- Kyiv subscriber as read by the address branch of update_schedules. -/
structure KUser where
  user_id : Nat
  street : Option String
  house : Option String
deriving DecidableEq

/-- The kyiv_dtek_address branch of update_schedules (src/main.py lines
1100-1111): for every subscriber of the city holding both DTEK ids, fetch
that address's schedule (`fetch` returns none on an error outcome, which is
skipped) and save it under group key 0 — the source comment reads
"0 = адреса". -/
def kyivRefresh (today : String) (users : List KUser)
    (fetch : String → String → Option String) (t : List SRow) : List SRow :=
  users.foldl (fun acc u =>
    match u.street, u.house with
    | some s, some h =>
      match fetch s h with
      | some dat => save_schedule acc "kyiv" 0 today dat
      | none => acc
    | _, _ => acc) t

/-- C4 counterexample: the claim fails on the code. Two Kyiv subscribers
with distinct lookup keys (street s1/house h1 versus street s2/house h2) are
both saved under the one store key ("kyiv", 0, date): refreshing subscriber
A alone stores A's schedule, and refreshing both leaves a single row holding
only B's schedule — B's write overwrote A's. -/
theorem c4_shared_key_overwrites :
    kyivRefresh "2026-10-12"
        [KUser.mk 1 (some "s1") (some "h1")] (fun s _ => some ("data-" ++ s)) []
      = [SRow.mk "kyiv" 0 "2026-10-12" "data-s1"] ∧
    kyivRefresh "2026-10-12"
        [KUser.mk 1 (some "s1") (some "h1"), KUser.mk 2 (some "s2") (some "h2")]
        (fun s _ => some ("data-" ++ s)) []
      = [SRow.mk "kyiv" 0 "2026-10-12" "data-s2"] := by
  decide

/-- C4 amended: save_schedule keeps at most one live row per
(city, group_number, date) key, and rows under a different key are never
overwritten — but for address-based locations the lookup key is not part of
the store key (all subscribers share group 0, see c4_shared_key_overwrites). -/
theorem c4_store_key_uniqueness :
    (∀ (t : List SRow) c g d dat, t.Pairwise (fun a b => sKey a ≠ sKey b) →
      (save_schedule t c g d dat).Pairwise (fun a b => sKey a ≠ sKey b)) ∧
    (∀ (t : List SRow) c g d dat r, r ∈ t → sKey r ≠ (c, g, d) →
      r ∈ save_schedule t c g d dat) := by
  constructor
  · intro t c g d dat hp
    unfold save_schedule
    split
    · rw [List.pairwise_map]
      refine hp.imp ?_
      intro a b hne
      have key_eq : ∀ r : SRow, sKey (if r.city = c ∧ r.group = g ∧ r.date = d then
          SRow.mk r.city r.group r.date dat else r) = sKey r := by
        intro r
        split <;> rfl
      rw [key_eq, key_eq]
      exact hne
    · rename_i hno
      rw [List.pairwise_append]
      refine ⟨hp, List.pairwise_singleton _ _, ?_⟩
      intro a ha b hb
      have hb' : b = SRow.mk c g d dat := by simpa using hb
      push_neg at hno
      have := hno a ha
      subst hb'
      intro hkey
      have h1 : a.city = c := congrArg Prod.fst hkey
      have h2 : a.group = g := congrArg (fun p => p.2.1) hkey
      have h3 : a.date = d := congrArg (fun p => p.2.2) hkey
      exact (this h1 h2) h3
  · intro t c g d dat r hr hne
    unfold save_schedule
    split
    · refine List.mem_map.mpr ⟨r, hr, ?_⟩
      rw [if_neg]
      intro hk
      exact hne (by simp [sKey, hk.1, hk.2.1, hk.2.2])
    · exact List.mem_append_left _ hr

/-- Witness for c4_store_key_uniqueness: appending to an empty table keeps
the key-uniqueness invariant, and a row under a different group survives an
upsert. -/
theorem c4_store_key_uniqueness_witness :
    (save_schedule [] "chernivtsi" 1 "2026-10-12" "x").Pairwise
      (fun a b => sKey a ≠ sKey b) ∧
    SRow.mk "chernivtsi" 1 "2026-10-12" "x" ∈
      save_schedule [SRow.mk "chernivtsi" 1 "2026-10-12" "x"]
        "chernivtsi" 2 "2026-10-12" "y" :=
  ⟨c4_store_key_uniqueness.1 [] "chernivtsi" 1 "2026-10-12" "x" List.Pairwise.nil,
   c4_store_key_uniqueness.2 [SRow.mk "chernivtsi" 1 "2026-10-12" "x"]
     "chernivtsi" 2 "2026-10-12" "y" _ (List.mem_singleton.mpr rfl) (by decide)⟩

/- ### Image store (ScheduleParser._save_image_url, src/main.py lines
480-490; image_schedules table keyed by city) -/

/-- INSERT .. ON CONFLICT(city) DO UPDATE SET image_url = excluded.image_url
on the image_schedules table, modelled as (city, image_url) pairs. -/
def saveImageUrl (t : List (String × String)) (c u : String) : List (String × String) :=
  if ∃ p ∈ t, p.1 = c then
    t.map (fun p => if p.1 = c then (p.1, u) else p)
  else t ++ [(c, u)]

/-- C9: both store writes are idempotent upserts on their natural key —
repeating save_schedule with the same (city, group, date, data), or
_save_image_url with the same (city, url), leaves the table exactly as one
application does (updated_at excluded from the model). -/
theorem c9_upserts_idempotent :
    (∀ (t : List SRow) c g d dat,
      save_schedule (save_schedule t c g d dat) c g d dat = save_schedule t c g d dat) ∧
    (∀ (t : List (String × String)) c u,
      saveImageUrl (saveImageUrl t c u) c u = saveImageUrl t c u) := by
  constructor
  · intro t c g d dat
    by_cases h : ∃ r ∈ t, r.city = c ∧ r.group = g ∧ r.date = d
    · have hinner : save_schedule t c g d dat =
          t.map (fun r => if r.city = c ∧ r.group = g ∧ r.date = d then
            SRow.mk r.city r.group r.date dat else r) := by
        rw [save_schedule, if_pos h]
      obtain ⟨r, hr, hk⟩ := h
      rw [hinner, save_schedule, if_pos ?_]
      · rw [List.map_map]
        refine List.map_congr_left ?_
        intro a _
        by_cases hk' : a.city = c ∧ a.group = g ∧ a.date = d
        · simp [Function.comp, hk', hk'.1, hk'.2.1, hk'.2.2]
        · simp [Function.comp, if_neg hk']
      · refine ⟨if r.city = c ∧ r.group = g ∧ r.date = d then
          SRow.mk r.city r.group r.date dat else r, List.mem_map.mpr ⟨r, hr, rfl⟩, ?_⟩
        rw [if_pos hk]
        exact hk
    · have hinner : save_schedule t c g d dat = t ++ [SRow.mk c g d dat] := by
        rw [save_schedule, if_neg h]
      rw [hinner, save_schedule, if_pos ⟨SRow.mk c g d dat, by simp, by simp⟩]
      rw [List.map_append]
      congr 1
      · conv_rhs => rw [← List.map_id t]
        refine List.map_congr_left ?_
        intro a ha
        rw [if_neg]
        · rfl
        · intro hk
          exact h ⟨a, ha, hk⟩
      · simp
  · intro t c u
    by_cases h : ∃ p ∈ t, p.1 = c
    · have hinner : saveImageUrl t c u =
          t.map (fun p => if p.1 = c then (p.1, u) else p) := by
        rw [saveImageUrl, if_pos h]
      obtain ⟨p, hp, hk⟩ := h
      rw [hinner, saveImageUrl, if_pos ?_]
      · rw [List.map_map]
        refine List.map_congr_left ?_
        intro a _
        by_cases hk' : a.1 = c
        · simp [Function.comp, hk']
        · simp [Function.comp, if_neg hk']
      · refine ⟨if p.1 = c then (p.1, u) else p, List.mem_map.mpr ⟨p, hp, rfl⟩, ?_⟩
        rw [if_pos hk]
        exact hk
    · have hinner : saveImageUrl t c u = t ++ [(c, u)] := by
        rw [saveImageUrl, if_neg h]
      rw [hinner, saveImageUrl, if_pos ⟨(c, u), by simp, by simp⟩]
      rw [List.map_append]
      congr 1
      · conv_rhs => rw [← List.map_id t]
        refine List.map_congr_left ?_
        intro a ha
        rw [if_neg]
        · rfl
        · intro hk
          exact h ⟨a, ha, hk⟩
      · simp

/- ### User store (UserManager.save_user, src/main.py lines 157-167; users
table, lines 92-104) -/

/-- Row of the users table. notifications_enabled is the 0/1 integer of the
schema; created_at is the insertion timestamp. -/
structure URow where
  user_id : Nat
  username : String
  city : String
  group_number : Option Nat
  address : Option String
  dtek_street_id : Option String
  dtek_house_id : Option String
  notifications_enabled : Nat
  created_at : Nat
deriving DecidableEq

/-- UserManager.save_user: INSERT INTO users (user_id, username, city,
group_number) ON CONFLICT(user_id) DO UPDATE SET username =
excluded.username, city = excluded.city. A fresh insert gets the schema
defaults NULL address/ids, notifications_enabled 1 and created_at `now`; a
conflicting insert updates only username and city. -/
def save_user (t : List URow) (uid : Nat) (un : String) (city : String)
    (g : Option Nat) (now : Nat) : List URow :=
  if ∃ r ∈ t, r.user_id = uid then
    t.map (fun r => if r.user_id = uid then
      URow.mk r.user_id un city r.group_number r.address r.dtek_street_id
        r.dtek_house_id r.notifications_enabled r.created_at
    else r)
  else t ++ [URow.mk uid un city g none none none 1 now]

/-- C10: saving a user whose user_id already exists updates only username
and city; group_number, address, both DTEK ids, notifications_enabled and
created_at come through unchanged, and the updated row derived from the
existing one is in the resulting table. -/
theorem c10_save_user_frame (t : List URow) (uid : Nat) (un city : String)
    (g : Option Nat) (now : Nat) (r : URow) (hr : r ∈ t) (hu : r.user_id = uid) :
    (URow.mk r.user_id un city r.group_number r.address r.dtek_street_id
        r.dtek_house_id r.notifications_enabled r.created_at
      ∈ save_user t uid un city g now) ∧
    (∀ r2 ∈ save_user t uid un city g now, r2.user_id = uid →
      ∃ r0 ∈ t, r0.user_id = uid ∧ r2.username = un ∧ r2.city = city ∧
        r2.group_number = r0.group_number ∧ r2.address = r0.address ∧
        r2.dtek_street_id = r0.dtek_street_id ∧
        r2.dtek_house_id = r0.dtek_house_id ∧
        r2.notifications_enabled = r0.notifications_enabled ∧
        r2.created_at = r0.created_at) := by
  have hex : ∃ r' ∈ t, r'.user_id = uid := ⟨r, hr, hu⟩
  constructor
  · rw [save_user, if_pos hex]
    exact List.mem_map.mpr ⟨r, hr, by rw [if_pos hu]⟩
  · intro r2 hr2 hu2
    rw [save_user, if_pos hex] at hr2
    obtain ⟨r0, hr0, hfr0⟩ := List.mem_map.mp hr2
    by_cases h0 : r0.user_id = uid
    · rw [if_pos h0] at hfr0
      exact ⟨r0, hr0, h0, by
        rw [← hfr0]
        exact ⟨rfl, rfl, rfl, rfl, rfl, rfl, rfl, rfl⟩⟩
    · rw [if_neg h0] at hfr0
      exact absurd (hfr0 ▸ hu2) h0

/-- Witness for c10_save_user_frame: re-saving user 7 with a new username
and city keeps group 3, the address, both DTEK ids, the notification flag
and the creation timestamp. -/
theorem c10_save_user_frame_witness :
    URow.mk 7 "newname" "chernivtsi" (some 3) (some "addr") (some "s")
        (some "h") 1 100
      ∈ save_user [URow.mk 7 "oldname" "kyiv" (some 3) (some "addr") (some "s")
        (some "h") 1 100] 7 "newname" "chernivtsi" none 200 :=
  (c10_save_user_frame _ 7 "newname" "chernivtsi" none 200 _
    (List.mem_singleton.mpr rfl) rfl).1

/- ### Image change detection (check_and_notify_image_changes, src/main.py
lines 1139-1174) -/

/-- One cycle of check_and_notify_image_changes for one image-based city.
`old` is the stored image URL before the cycle (None on the first run);
`fetched` is the URL the fetch resolved and saved via _save_image_url (None
when no image was found or the fetch failed, in which case the store is
untouched). Returns the stored URL after the cycle and the list of users the
broadcast is sent to: nothing when the URL is unchanged or absent, and
nothing on the first-ever URL (the elif branch only logs). -/
def imageCheckStep (old : Option String) (fetched : Option String)
    (users : List Nat) : Option String × List Nat :=
  let stored := match fetched with
    | some u => some u
    | none => old
  match stored, old with
  | none, _ => (none, [])
  | some nu, some o => (some nu, if o ≠ nu then users else [])
  | some nu, none => (some nu, [])

/-- C5: two consecutive cycles resolving the same URL broadcast nothing; a
cycle resolving a different URL than the stored one broadcasts to every
subscriber of the location exactly once; the first-ever stored URL
broadcasts nothing. -/
theorem c5_image_change_detection :
    (∀ (u : String) (users : List Nat),
      imageCheckStep (some u) (some u) users = (some u, [])) ∧
    (∀ (u1 u2 : String) (users : List Nat), u1 ≠ u2 →
      imageCheckStep (some u1) (some u2) users = (some u2, users)) ∧
    (∀ (u1 u2 : String) (users : List Nat), u1 ≠ u2 → users.Nodup →
      ∀ x ∈ users, ((imageCheckStep (some u1) (some u2) users).2).count x = 1) ∧
    (∀ (u : String) (users : List Nat),
      imageCheckStep none (some u) users = (some u, [])) := by
  refine ⟨?_, ?_, ?_, ?_⟩
  · intro u users
    simp [imageCheckStep]
  · intro u1 u2 users hne
    simp [imageCheckStep, hne]
  · intro u1 u2 users hne hnd x hx
    simp only [imageCheckStep, if_pos hne]
    exact List.count_eq_one_of_mem hnd hx
  · intro u users
    simp [imageCheckStep]

/-- Witness for c5_image_change_detection at concrete URLs and subscribers. -/
theorem c5_image_change_detection_witness :
    imageCheckStep (some "a.png") (some "a.png") [1, 2] = (some "a.png", []) ∧
    imageCheckStep (some "a.png") (some "b.png") [1, 2] = (some "b.png", [1, 2]) ∧
    ((imageCheckStep (some "a.png") (some "b.png") [1, 2]).2).count 1 = 1 ∧
    imageCheckStep none (some "a.png") [1, 2] = (some "a.png", []) :=
  ⟨c5_image_change_detection.1 "a.png" [1, 2],
   c5_image_change_detection.2.1 "a.png" "b.png" [1, 2] (by decide),
   c5_image_change_detection.2.2.1 "a.png" "b.png" [1, 2] (by decide)
     (by decide) 1 (by decide),
   c5_image_change_detection.2.2.2 "a.png" [1, 2]⟩

/- ### Refresh loop failure isolation (update_schedules, src/main.py lines
1086-1136; fetch_schedule, lines 279-311) -/

/-- ScheduleParser.fetch_schedule at the adapter boundary for the Chernivtsi
strategy: an exception anywhere during fetch or parse (`Except.error`) is
caught and converted to the failure outcome None; a fetched document is
parsed. -/
def fetchChernivtsiOutcome (raw : Except String ChDoc) :
    Option (List (Nat × List Item)) :=
  match raw with
  | .error _ => none
  | .ok doc => parseChernivtsi 12 doc

/-- The per-city loop of update_schedules. Each city's step may raise
(`Except.error`); the source wraps the whole body in try/except, so an error
is logged and the loop continues: the table is left as it was and the next
city is processed. Returns the final table and the cities processed this
cycle, in order. -/
def refreshAll (cities : List String)
    (step : String → Except String (List SRow → List SRow))
    (t : List SRow) : List SRow × List String :=
  cities.foldl (fun acc c =>
    match step c with
    | .ok f => (f acc.1, acc.2 ++ [c])
    | .error _ => (acc.1, acc.2 ++ [c])) (t, [])

/-- The table component of the loop does not depend on the processed-cities
accumulator. -/
theorem refreshAll_fst_indep (cities : List String)
    (step : String → Except String (List SRow → List SRow)) :
    ∀ (t : List SRow) (a b : List String),
      (cities.foldl (fun acc c =>
        match step c with
        | .ok f => (f acc.1, acc.2 ++ [c])
        | .error _ => (acc.1, acc.2 ++ [c])) (t, a)).1 =
      (cities.foldl (fun acc c =>
        match step c with
        | .ok f => (f acc.1, acc.2 ++ [c])
        | .error _ => (acc.1, acc.2 ++ [c])) (t, b)).1 := by
  induction cities with
  | nil => intro t a b; rfl
  | cons c rest ih =>
    intro t a b
    simp only [List.foldl]
    cases step c with
    | ok f => exact ih (f t) (a ++ [c]) (b ++ [c])
    | error e => exact ih t (a ++ [c]) (b ++ [c])

/-- C7: every city is processed in every cycle regardless of per-city
errors, a city whose step raises leaves the cycle's remaining work exactly
as if that city were absent, and a raising fetch is converted to the failure
outcome at the adapter boundary instead of propagating. -/
theorem c7_refresh_isolation :
    (∀ (cities : List String)
      (step : String → Except String (List SRow → List SRow)) (t : List SRow),
      (refreshAll cities step t).2 = cities) ∧
    (∀ (c : String) (rest : List String)
      (step : String → Except String (List SRow → List SRow))
      (t : List SRow) (e : String),
      step c = .error e →
      (refreshAll (c :: rest) step t).1 = (refreshAll rest step t).1) ∧
    (∀ e : String, fetchChernivtsiOutcome (.error e) = none) := by
  refine ⟨?_, ?_, fun _ => rfl⟩
  · have aux : ∀ (cities : List String)
        (step : String → Except String (List SRow → List SRow))
        (t : List SRow) (a : List String),
        (cities.foldl (fun acc c =>
          match step c with
          | .ok f => (f acc.1, acc.2 ++ [c])
          | .error _ => (acc.1, acc.2 ++ [c])) (t, a)).2 = a ++ cities := by
      intro cities
      induction cities with
      | nil => intro step t a; simp
      | cons c rest ih =>
        intro step t a
        simp only [List.foldl]
        cases step c with
        | ok f => rw [ih]; simp
        | error e => rw [ih]; simp
    intro cities step t
    simpa using aux cities step t []
  · intro c rest step t e he
    simp only [refreshAll, List.foldl, he]
    exact refreshAll_fst_indep rest step t [c] []

/-- A concrete cycle in which the first city's step raises. -/
def stepEx : String → Except String (List SRow → List SRow) :=
  fun c =>
    if c = "chernivtsi" then .error "boom"
    else .ok (fun t => t ++ [SRow.mk c 1 "2026-10-12" "x"])

/-- Witness for c7_refresh_isolation: with chernivtsi raising, both cities
are still processed and kyiv's write still lands. -/
theorem c7_refresh_isolation_witness :
    (refreshAll ["chernivtsi", "kyiv"] stepEx []).2 = ["chernivtsi", "kyiv"] ∧
    (refreshAll ["chernivtsi", "kyiv"] stepEx []).1 =
      (refreshAll ["kyiv"] stepEx []).1 ∧
    fetchChernivtsiOutcome (.error "boom") = none :=
  ⟨c7_refresh_isolation.1 ["chernivtsi", "kyiv"] stepEx [],
   c7_refresh_isolation.2.1 "chernivtsi" ["kyiv"] stepEx [] "boom" rfl,
   c7_refresh_isolation.2.2 "boom"⟩

/- ### Selenium table adapter (SeleniumScheduleParser._parse_table and
._determine_status, src/selenium_parser.py lines 116-187 and 204-232) -/

/-- Table cell as read by _determine_status: style attribute, the
space-joined class list, the bgcolor attribute, and the stripped text. -/
structure SCell where
  style : String
  classes : String
  bgcolor : String
  text : String
deriving DecidableEq

/-- Python str.lower(), character-wise (the marker comparisons below only
involve ASCII markers, and the Ukrainian keywords are already lowercase). -/
def lowerS (s : String) : String := String.mk (s.data.map Char.toLower)

/-- Explicit outage markers (src/selenium_parser.py lines 212-213). -/
def offMarkers : List String :=
  ["red", "#ff0000", "#f00", "rgb(255,0,0)", "danger", "outage"]

/-- Explicit restoration markers (lines 217-218). -/
def onMarkers : List String :=
  ["green", "#00ff00", "#0f0", "rgb(0,255,0)", "success", "power"]

/-- Uncertain markers (lines 222-223). -/
def maybeMarkers : List String := ["yellow", "gray", "grey", "warning", "maybe"]

/-- Outage text keywords (line 227). -/
def offWords : List String := ["відключення", "немає", "off"]

/-- Uncertain text keywords (line 229). -/
def maybeWords : List String := ["можливо", "maybe"]

/-- `any(x in style or x in classes or x in bgcolor for x in ms)` on the
lowered attributes. -/
def hasMarker (ms : List String) (c : SCell) : Bool :=
  ms.any (fun x =>
    pyIn x (lowerS c.style) || pyIn x (lowerS c.classes) || pyIn x (lowerS c.bgcolor))

/-- `any(word in text for word in ws)` on the lowered cell text. -/
def hasWord (ws : List String) (c : SCell) : Bool :=
  ws.any (fun w => pyIn w (lowerS c.text))

/-- SeleniumScheduleParser._determine_status: outage marker, then
restoration marker, then uncertain marker, then outage keyword, then
uncertain keyword, then the default 'on'. -/
def determine_status (c : SCell) : String :=
  if hasMarker offMarkers c then "off"
  else if hasMarker onMarkers c then "on"
  else if hasMarker maybeMarkers c then "maybe"
  else if hasWord offWords c then "off"
  else if hasWord maybeWords c then "maybe"
  else "on"

/-- `re.search(r'\d+', s)` converted with int(): the first maximal digit run. -/
def firstNum : List Char → Option Nat
  | [] => none
  | c :: t =>
    if c.isDigit then some (digitsVal (c :: t.takeWhile Char.isDigit))
    else firstNum t

/-- Python dict assignment `schedule_data[group_num] = v` on an
insertion-ordered association list: replace in place if the key exists,
append otherwise. -/
def dictInsert (l : List (Nat × List Item)) (k : Nat) (v : List Item) :
    List (Nat × List Item) :=
  if ∃ p ∈ l, p.1 = k then l.map (fun p => if p.1 = k then (k, v) else p)
  else l ++ [(k, v)]

/-- The generated fallback grid (line 141): 2-hour slots 00:00-02:00 .. -/
def defaultHeaders : List String :=
  (List.range 12).map (fun k => fmt2 (2 * k) ++ ":00-" ++ fmt2 (2 * k + 2) ++ ":00")

/-- SeleniumScheduleParser._parse_table on a found table, modelled as its
list of tr rows (each a list of cells). The header row is the first tr;
its cell texts containing ':' or '-' become the headers, with the generated
default grid as fallback; the remaining rows are data rows. A row with
fewer than two cells, no digit run in its first cell, or a group number
outside 1..20 is skipped. Each kept row maps its remaining cells against
the headers (the loop breaks when the headers run out). An empty result is
reported as None. -/
def parse_table (trs : List (List SCell)) : Option (List (Nat × List Item)) :=
  let headerTexts := ((trs.headD []).map SCell.text).filter
    (fun t => pyIn ":" t || pyIn "-" t)
  let headers := if headerTexts = [] then defaultHeaders else headerTexts
  let data := (trs.drop 1).foldl (fun acc cells =>
    if cells.length < 2 then acc
    else
      match firstNum (cells.headD (SCell.mk "" "" "" "")).text.data with
      | none => acc
      | some g =>
        if g < 1 ∨ 20 < g then acc
        else dictInsert acc g
          (List.zipWith (fun c h => Item.mk h (determine_status c))
            (cells.drop 1) headers)) []
  if data = [] then none else some data

/-- A header-only cell carrying text. -/
def textCell (t : String) : SCell := SCell.mk "" "" "" t

/-- A red (outage-coloured) cell. -/
def redCell : SCell := SCell.mk "background-color: red" "" "" ""

/-- A green (restoration-coloured) cell. -/
def greenCell : SCell := SCell.mk "background-color: green" "" "" ""

/-- The scenario table: a header row and a row for group 3 with cells
[red, green, green]. -/
def scenarioTrs : List (List SCell) :=
  [[textCell "Час", textCell "00:00-00:30", textCell "00:30-01:00",
    textCell "01:00-01:30"],
   [textCell "Group 3", redCell, greenCell, greenCell]]

/-- C8: _determine_status resolves each cell by strict precedence — outage
marker, then restoration marker, then uncertain marker, then outage
keyword, then uncertain keyword, then the default on — and consequently the
scenario row "Group 3" with cells [red, green, green] under headers
00:00-00:30 / 00:30-01:00 / 01:00-01:30 normalizes to group 3 ↦
[off, on, on]. -/
theorem c8_status_precedence_scenario :
    (∀ c : SCell,
      (hasMarker offMarkers c = true → determine_status c = "off") ∧
      (hasMarker offMarkers c = false → hasMarker onMarkers c = true →
        determine_status c = "on") ∧
      (hasMarker offMarkers c = false → hasMarker onMarkers c = false →
        hasMarker maybeMarkers c = true → determine_status c = "maybe") ∧
      (hasMarker offMarkers c = false → hasMarker onMarkers c = false →
        hasMarker maybeMarkers c = false → hasWord offWords c = true →
        determine_status c = "off") ∧
      (hasMarker offMarkers c = false → hasMarker onMarkers c = false →
        hasMarker maybeMarkers c = false → hasWord offWords c = false →
        hasWord maybeWords c = true → determine_status c = "maybe") ∧
      (hasMarker offMarkers c = false → hasMarker onMarkers c = false →
        hasMarker maybeMarkers c = false → hasWord offWords c = false →
        hasWord maybeWords c = false → determine_status c = "on")) ∧
    parse_table scenarioTrs =
      some [(3, [Item.mk "00:00-00:30" "off", Item.mk "00:30-01:00" "on",
                 Item.mk "01:00-01:30" "on"])] := by
  constructor
  · intro c
    refine ⟨?_, ?_, ?_, ?_, ?_, ?_⟩ <;>
      · intros
        simp [determine_status, *]
  · decide

/-- Witness for c8_status_precedence_scenario: the outage-marked cell
resolves to off and the restoration-marked cell to on. -/
theorem c8_status_precedence_scenario_witness :
    determine_status redCell = "off" ∧ determine_status greenCell = "on" :=
  ⟨(c8_status_precedence_scenario.1 redCell).1 (by decide),
   (c8_status_precedence_scenario.1 greenCell).2.1 (by decide) (by decide)⟩

end TGBot
